import Mathlib

/-!
# Verification of the sigme_backend signal/alerting core

Shallow embedding of the connectivity-monitoring backend's core logic:

* the coordinates helper module (part_006, the live copy of
  `lib/helpers/coordinates.js`) — haversine distance, bounding-box
  pre-filter and fuzzy find-or-create of `Location` rows;
* `src/lib/3rd_party/googleplaces/analyze-signal.js` — dBm quality
  classification and per-carrier aggregation of stored cellular samples;
* `src/controllers/alerts.controller.js` — the alert confirm/dismiss
  lifecycle endpoints;
* the `POST /ping` handler of the connectivity controller — liveness
  timestamp throttling, low-signal evaluation via `parseInt`, persistence
  of readings/samples and the alert-mechanism dispatch.

JavaScript numbers appearing in discrete comparisons are embedded as `ℚ`
(exact for every decimal literal the handlers receive); timestamps as `ℤ`
milliseconds; database rows as Lean structures with surrogate `ℕ` ids, and
each handler as an explicit state-passing function over a record of row
lists.  The trigonometric part of the haversine formula is embedded over
`ℝ` with Mathlib's `Real.sin`/`Real.cos`/`Real.arctan`.
-/

namespace Sigme


/-! ## SignalClassifier (`analyze-signal.js`, `classifySignal`)

```js
function classifySignal(avgDbm) {
  if (avgDbm >= -70) return "Excellent";
  if (avgDbm >= -85) return "Good";
  if (avgDbm >= -100) return "Weak";
  return "No Signal";
}
```
-/

def classifySignal (avgDbm : ℚ) : String :=
  if avgDbm ≥ -70 then "Excellent"
  else if avgDbm ≥ -85 then "Good"
  else if avgDbm ≥ -100 then "Weak"
  else "No Signal"

/-! ## Low-signal rule of `POST /ping` (part_002, lines 466–470)

```js
const parsedDbm = parseInt(signalDbm);
const parsedLevel = parseInt(signalLevel);
const isLowSignal =
    (!isNaN(parsedDbm) && parsedDbm <= -100) ||
    (!isNaN(parsedLevel) && parsedLevel <= 1);
```

`parseInt` applied to a JavaScript number first converts it to its decimal
string and then reads the leading integer part: on a value written in plain
decimal notation this truncates toward zero; on an absent (`undefined`/
`null`) or non-numeric input it yields `NaN`.  An input is embedded as
`Option ℚ` (`none` = absent or non-numeric), `parseInt`'s result as
`Option ℤ` (`none` = `NaN`). -/

/-- Truncation toward zero, the value `parseInt` reads off a decimal-notation
number. -/
def jsTrunc (q : ℚ) : ℤ := if q < 0 then ⌈q⌉ else ⌊q⌋

def jsParseInt : Option ℚ → Option ℤ
  | none => none
  | some q => some (jsTrunc q)

def isLowSignal (signalDbm signalLevel : Option ℚ) : Bool :=
  (match jsParseInt signalDbm with
   | some d => decide (d ≤ -100)
   | none => false) ||
  (match jsParseInt signalLevel with
   | some l => decide (l ≤ 1)
   | none => false)

/-- The low-signal rule exactly as the specification words it: raw dBm
`≤ −100` OR raw coarse level `≤ 1`, each criterion false when its value is
absent.  Kept separate from `isLowSignal` (which is translated from the
code) so the two can be compared. -/
def specLowSignal (signalDbm signalLevel : Option ℚ) : Prop :=
  (∃ q, signalDbm = some q ∧ q ≤ -100) ∨ (∃ q, signalLevel = some q ∧ q ≤ 1)

/-! ## GeoMatcher (the coordinates helper module, part_006)

`haversineDistance` follows the source line by line (Earth radius
`6371e3` m, `toRad x = x·π/180`, `a = sin²(dLat/2) + cos(lat1)·cos(lat2)·
sin²(dLon/2)`, distance `R·2·atan2(√a, √(1−a))`).  `Math.atan2` is embedded
with its full quadrant semantics.  The repository holds two drifted copies
of this module; the live one, resolved by the importers, is part_006's: it
is the only copy that exports `findNearbyLocation` (which
`analyze-signal.js` imports by name), it uses the `db` client (the copy at
`src/lib/helpers/coordinates.js` references an unbound `prisma`), and it
stores the schema's `accuracy` field (the `Location` model has no label).
Its constants: `delta = 0.00015` for the bounding box, default matching
radius 15 m. -/

open Classical in
/-- JavaScript's `Math.atan2 y x`. -/
noncomputable def atan2 (y x : ℝ) : ℝ :=
  if 0 < x then Real.arctan (y / x)
  else if x < 0 then
    (if 0 ≤ y then Real.arctan (y / x) + Real.pi
     else Real.arctan (y / x) - Real.pi)
  else
    (if 0 < y then Real.pi / 2
     else if y < 0 then -(Real.pi / 2)
     else 0)

noncomputable def toRad (x : ℚ) : ℝ := (x : ℝ) * Real.pi / 180

noncomputable def haversineDistance (lat1 lon1 lat2 lon2 : ℚ) : ℝ :=
  let R : ℝ := 6371000
  let dLat := toRad (lat2 - lat1)
  let dLon := toRad (lon2 - lon1)
  let a := Real.sin (dLat / 2) ^ 2 +
    Real.cos (toRad lat1) * Real.cos (toRad lat2) * Real.sin (dLon / 2) ^ 2
  R * 2 * atan2 (Real.sqrt a) (Real.sqrt (1 - a))

structure Location where
  id : ℕ
  latitude : ℚ
  longitude : ℚ
  accuracy : Option ℚ := none
deriving Repr, DecidableEq

/-- The bounding-box pre-filter of `findNearbyLocation`: the `findMany`
`where` clause keeps the rows whose latitude and longitude each lie within
`delta = 0.00015` of the target. -/
def inBoundingBox (latitude longitude : ℚ) (loc : Location) : Bool :=
  decide (latitude - 15/100000 ≤ loc.latitude ∧ loc.latitude ≤ latitude + 15/100000 ∧
    longitude - 15/100000 ≤ loc.longitude ∧ loc.longitude ≤ longitude + 15/100000)

open Classical in
/-- The candidate loop of `findNearbyLocation`: return the first candidate
whose haversine distance to the target is at most `maxDistanceMeters`. -/
noncomputable def firstWithinDistance (latitude longitude maxD : ℚ) :
    List Location → Option Location
  | [] => none
  | loc :: rest =>
    if haversineDistance latitude longitude loc.latitude loc.longitude ≤ (maxD : ℝ)
    then some loc
    else firstWithinDistance latitude longitude maxD rest

noncomputable def findNearbyLocation (locations : List Location)
    (latitude longitude : ℚ) (maxDistanceMeters : ℚ := 15) : Option Location :=
  firstWithinDistance latitude longitude maxDistanceMeters
    (locations.filter (inBoundingBox latitude longitude))

structure LocationDB where
  locations : List Location
  nextId : ℕ
deriving Repr, DecidableEq

/-- `getOrCreateFuzzyLocation`: fuzzy lookup with the default 15 m radius;
on a miss, create and persist a new `Location` with the given coordinates
and optional accuracy and return it. -/
noncomputable def getOrCreateFuzzyLocation (db : LocationDB)
    (latitude longitude : ℚ) (accuracy : Option ℚ) : Location × LocationDB :=
  match findNearbyLocation db.locations latitude longitude with
  | some loc => (loc, db)
  | none =>
    let newLoc : Location := ⟨db.nextId, latitude, longitude, accuracy⟩
    (newLoc, ⟨db.locations ++ [newLoc], db.nextId + 1⟩)

/-- A stored location at the north pole, used to exhibit the bounding-box
blind spot of the fuzzy matcher. -/
def poleDB : LocationDB := ⟨[⟨0, 90, 0, none⟩], 1⟩

/-! ## CarrierSignalAggregator (`analyze-signal.js`, `classifySignalByCarrier`)

The stored rows the aggregation reads: `connectivityInfo` rows with their
(optional) related `mobileNetworkInfo`, selected by `locationId` and
`mobileNetworkInfo: { isNot: null }`.  The JS accumulator object keyed by
carrier preserves insertion order, embedded as an association list;
`Math.round` is `⌊q + 1/2⌋` (half rounds toward +∞). -/

structure CellReading where
  carrier : Option String
  signalDbm : Option ℚ
deriving Repr, DecidableEq

structure SigSample where
  locationId : Option ℕ
  mobileNetworkInfo : Option CellReading
deriving Repr, DecidableEq

structure SignalDB where
  locations : List Location
  connectivityInfos : List SigSample
deriving Repr, DecidableEq

structure CarrierEntry where
  carrier : String
  avgDbm : ℤ
  quality : String
  count : ℕ
deriving Repr, DecidableEq

/-- JavaScript's `Math.round`. -/
def jsRound (q : ℚ) : ℤ := ⌊q + 1/2⌋

/-- JavaScript's `String.prototype.toUpperCase()` on the ASCII carrier
names the system stores. -/
def jsToUpper (s : String) : String := ⟨s.data.map Char.toUpper⟩

/-- `grouped[carrier].total += dbm; grouped[carrier].count += 1`, creating
the group on first sight (at the end, as JS object insertion order does). -/
def addSample (groups : List (String × ℚ × ℕ)) (carrier : String) (dbm : ℚ) :
    List (String × ℚ × ℕ) :=
  if groups.any (fun g => g.1 = carrier) then
    groups.map (fun g => if g.1 = carrier then (g.1, g.2.1 + dbm, g.2.2 + 1) else g)
  else groups ++ [(carrier, dbm, 1)]

/-- One iteration of the `for (const log of logs)` loop:
`if (!info?.carrier || typeof info.signalDbm !== 'number') continue;` —
note a *truthiness* test on the carrier, so the empty string is skipped
alongside null. -/
def groupStep (groups : List (String × ℚ × ℕ)) (log : SigSample) :
    List (String × ℚ × ℕ) :=
  match log.mobileNetworkInfo with
  | none => groups
  | some info =>
    match info.carrier, info.signalDbm with
    | some c, some dbm => if c = "" then groups else addSample groups (jsToUpper c) dbm
    | _, _ => groups

def groupLogs (logs : List SigSample) : List (String × ℚ × ℕ) :=
  logs.foldl groupStep []

noncomputable def classifySignalByCarrier (db : SignalDB) (lat lng : ℚ)
    (maxDistance : ℚ := 15) : List CarrierEntry :=
  match findNearbyLocation db.locations lat lng maxDistance with
  | none => []
  | some location =>
    let logs := db.connectivityInfos.filter
      (fun s => decide (s.locationId = some location.id) && s.mobileNetworkInfo.isSome)
    (groupLogs logs).map fun g =>
      ⟨g.1, jsRound (g.2.1 / (g.2.2 : ℚ)), classifySignal (g.2.1 / (g.2.2 : ℚ)), g.2.2⟩

/-- The collection step exactly as the claim words it — "samples having a
cellular reading with non-null carrier and numeric dBm" — i.e. without the
code's truthiness skip of the empty-string carrier.  Kept separate so the
two can be compared. -/
def specGroupStep (groups : List (String × ℚ × ℕ)) (log : SigSample) :
    List (String × ℚ × ℕ) :=
  match log.mobileNetworkInfo with
  | none => groups
  | some info =>
    match info.carrier, info.signalDbm with
    | some c, some dbm => addSample groups (jsToUpper c) dbm
    | _, _ => groups

noncomputable def specClassifySignalByCarrier (db : SignalDB) (lat lng : ℚ)
    (maxDistance : ℚ := 15) : List CarrierEntry :=
  match findNearbyLocation db.locations lat lng maxDistance with
  | none => []
  | some location =>
    let logs := db.connectivityInfos.filter
      (fun s => decide (s.locationId = some location.id) && s.mobileNetworkInfo.isSome)
    (logs.foldl specGroupStep []).map fun g =>
      ⟨g.1, jsRound (g.2.1 / (g.2.2 : ℚ)), classifySignal (g.2.1 / (g.2.2 : ℚ)), g.2.2⟩

/-- A location with a sample whose carrier is the empty string (non-null)
and whose dBm is numeric. -/
def emptyCarrierDB : SignalDB :=
  ⟨[⟨0, 30, 31, none⟩], [⟨some 0, some ⟨some "", some (-80)⟩⟩]⟩

/-- Three cellular samples from carrier "Vodafone" at one location, with
dBm −80, −90, −100 (the spec's worked example). -/
def vodafoneDB : SignalDB :=
  ⟨[⟨0, 30, 31, none⟩],
    [⟨some 0, some ⟨some "Vodafone", some (-80)⟩⟩,
     ⟨some 0, some ⟨some "Vodafone", some (-90)⟩⟩,
     ⟨some 0, some ⟨some "Vodafone", some (-100)⟩⟩]⟩

/-- Five Vodafone samples whose dBm mean is −70.4: four at −70 and one at
−72. -/
def meanGapDB : SignalDB :=
  ⟨[⟨0, 30, 31, none⟩],
    [⟨some 0, some ⟨some "Vodafone", some (-70)⟩⟩,
     ⟨some 0, some ⟨some "Vodafone", some (-70)⟩⟩,
     ⟨some 0, some ⟨some "Vodafone", some (-70)⟩⟩,
     ⟨some 0, some ⟨some "Vodafone", some (-70)⟩⟩,
     ⟨some 0, some ⟨some "Vodafone", some (-72)⟩⟩]⟩

/-! ## Alert lifecycle (`src/controllers/alerts.controller.js`) and the
`POST /ping` handler (part_002)

Alert rows follow the Prisma schema (`status` defaults to `PENDING`,
`resolvedAt` nullable).  The embedded handlers thread an explicit database
record; `sendEmail` deliveries are recorded in an `emails` list.

The confirm handler's file imports `express`, `db`, `verifyToken` and
`AlertStatus` but *not* `sendEmail`; evaluating the unbound identifier
`sendEmail` at line 83 throws a `ReferenceError`, which the handler's
`try/catch` converts into a 500 response — after the status update has
already been persisted, and with no email sent.  The embedding mirrors
that behaviour. -/

inductive AlertStatus where
  | PENDING
  | CONFIRMED
  | DISMISSED
deriving Repr, DecidableEq

inductive AlertType where
  | LOW_SIGNAL
  | HIGH_LATENCY
  | DEVICE_DISCONNECT
  | BATTERY_LOW
deriving Repr, DecidableEq

inductive AlertMechanism where
  | manual_alert
  | auto_alert
deriving Repr, DecidableEq

structure Alert where
  id : ℕ
  userId : ℕ
  deviceId : ℕ
  connectivityInfoId : Option ℕ
  type : AlertType
  message : String
  status : AlertStatus
  mechanism : AlertMechanism
  resolvedAt : Option ℤ
deriving Repr, DecidableEq

structure EmailMsg where
  toAddr : String
  subject : String
  text : Option String
deriving Repr, DecidableEq

structure AlertDB where
  alerts : List Alert
  emails : List EmailMsg
deriving Repr, DecidableEq

inductive AlertEndpointResponse where
  | ok (message : String) (alert : Alert)
  | notFound (message : String)
  | badRequest (message : String)
  | serverError (message : String)
deriving Repr, DecidableEq

/-- The confirm handler after `findUnique` resolved (split out so each
stage of the handler is a rewritable equation). -/
def confirmWithAlert (db : AlertDB) (userId alertId : ℕ) (now : ℤ) :
    Option Alert → AlertEndpointResponse × AlertDB
  | none => (.notFound "Alert not found or access denied", db)
  | some alert =>
    if alert.userId ≠ userId then
      (.notFound "Alert not found or access denied", db)
    else if alert.status ≠ AlertStatus.PENDING then
      (.badRequest "Alert already handled", db)
    else
      let db1 : AlertDB := { db with alerts := db.alerts.map (fun a =>
        if a.id = alertId then { a with status := .CONFIRMED, resolvedAt := some now }
        else a) }
      (.serverError "sendEmail is not defined", db1)

/-- `POST /api/alerts/:id/confirm`.  404 when the alert is missing or not
owned (one indistinguishable response); 400 when it is no longer
`PENDING`; otherwise the row is updated to `CONFIRMED` with `resolvedAt`
stamped, after which the call to the *unimported* `sendEmail` throws and
the `catch` returns 500 (`err.message` = "sendEmail is not defined"), so
no email is recorded. -/
def confirmAlert (db : AlertDB) (userId alertId : ℕ) (now : ℤ) :
    AlertEndpointResponse × AlertDB :=
  confirmWithAlert db userId alertId now
    (db.alerts.find? (fun a => decide (a.id = alertId)))

/-- The dismiss handler after `findUnique` resolved. -/
def dismissWithAlert (db : AlertDB) (userId alertId : ℕ) (now : ℤ) :
    Option Alert → AlertEndpointResponse × AlertDB
  | none => (.notFound "Alert not found or access denied", db)
  | some alert =>
    if alert.userId ≠ userId then
      (.notFound "Alert not found or access denied", db)
    else if alert.status ≠ AlertStatus.PENDING then
      (.badRequest "Alert already handled", db)
    else
      let updatedAlert := { alert with
        status := AlertStatus.DISMISSED
        resolvedAt := some now }
      let db1 : AlertDB := { db with alerts := db.alerts.map (fun a =>
        if a.id = alertId then { a with status := .DISMISSED, resolvedAt := some now }
        else a) }
      (.ok "Alert dismissed" updatedAlert, db1)

/-- `POST /api/alerts/:id/dismiss`: same guards; on success the row is
updated to `DISMISSED` with `resolvedAt` stamped and a 200 is returned;
no email is sent on this path. -/
def dismissAlert (db : AlertDB) (userId alertId : ℕ) (now : ℤ) :
    AlertEndpointResponse × AlertDB :=
  dismissWithAlert db userId alertId now
    (db.alerts.find? (fun a => decide (a.id = alertId)))

structure DeviceInfo where
  id : ℕ
  userId : Option ℕ
  lastPinged : Option ℤ
deriving Repr, DecidableEq

structure DbUser where
  id : ℕ
  email : String
  alertModeKey : Option String
deriving Repr, DecidableEq

inductive ContactType where
  | EMERGENCY
  | FAVORITE
deriving Repr, DecidableEq

structure Contact where
  userId : ℕ
  type : ContactType
  email : String
deriving Repr, DecidableEq

structure MobileNetworkInfo where
  id : ℕ
  carrier : Option String
  networkType : Option String
  signalDbm : Option ℤ
  signalLevel : Option ℤ
  mcc : Option String
  mnc : Option String
deriving Repr, DecidableEq

structure ConnectivityInfo where
  id : ℕ
  deviceId : ℕ
  connectivityType : String
  isConnected : Bool
  mobileNetworkInfoId : Option ℕ
deriving Repr, DecidableEq

structure PingDB where
  devices : List DeviceInfo
  users : List DbUser
  contacts : List Contact
  mobileNetworkInfos : List MobileNetworkInfo
  connectivityInfos : List ConnectivityInfo
  alerts : List Alert
  emails : List EmailMsg
  nextId : ℕ
deriving Repr, DecidableEq

/-- The `req.body` fields the ping handler reads.  `none` stands for an
absent (or non-numeric, for the two signal fields) value. -/
structure PingRequest where
  deviceId : Option ℕ
  signalDbm : Option ℚ := none
  signalLevel : Option ℚ := none
  carrier : Option String := none
  networkType : Option String := none
  mcc : Option String := none
  mnc : Option String := none
deriving Repr, DecidableEq

/-- `req.user`, the JWT payload: the login endpoints sign the whole user
record, so the id and email are available. -/
structure ReqUser where
  id : ℕ
  email : String
deriving Repr, DecidableEq

/-- The ping endpoint's response: 400 (missing deviceId), 404 (device not
found / not owned), 500 (an exception caught by the handler, e.g. Prisma
rejecting a `NaN` signal value), or 200 with `lastPinged`, the optional
`warning: 'Low signal detected'` (presence embedded as a Bool) and the
optional pending alert. -/
inductive PingResponse where
  | badRequest (message : String)
  | notFound (message : String)
  | serverError (message : String)
  | ok (deviceId : ℕ) (lastPinged : Option ℤ) (warning : Bool)
      (pendingAlert : Option Alert)
deriving Repr, DecidableEq

/-- `!device.lastPinged || (now - new Date(device.lastPinged)) > 5*60*1000`. -/
def shouldUpdateLastPinged (device : DeviceInfo) (now : ℤ) : Bool :=
  match device.lastPinged with
  | none => true
  | some t => decide (now - t > 5 * 60 * 1000)

/-- `userWithAlert?.alertMode?.key` (the user table is not modified by the
ping handler, so the lookup takes the user list). -/
def userAlertModeKey (users : List DbUser) (userId : ℕ) : Option String :=
  match users.find? (fun u => decide (u.id = userId)) with
  | some u => u.alertModeKey
  | none => none

/-- Recipient of the automatic notification: the first EMERGENCY contact of
the user if any, otherwise the user's own account email. -/
def emergencyRecipient (contacts : List Contact) (user : ReqUser) : String :=
  match contacts.filter (fun c =>
      decide (c.userId = user.id) && decide (c.type = ContactType.EMERGENCY)) with
  | c :: _ => c.email
  | [] => user.email

/-- The success path of the low-signal arm, reached only when both parsed
signal fields are integers: persist the `MobileNetworkInfo` reading (with
the truncated values) and the disconnected `ConnectivityInfo` sample
referencing it, then dispatch on the user's alert-mode key — `auto_alert`
sends the email and creates no Alert row, `manual_alert` creates exactly
one `PENDING` Alert linked to user/device/sample and sends nothing, any
other (or absent) key does neither. -/
def pingPersistAndDispatch (db1 : PingDB) (user : ReqUser) (body : PingRequest)
    (device : DeviceInfo) (lastPingedOut : Option ℤ)
    (parsedDbm parsedLevel : ℤ) : PingResponse × PingDB :=
  let reading : MobileNetworkInfo :=
    ⟨db1.nextId, body.carrier, body.networkType, some parsedDbm,
      some parsedLevel, body.mcc, body.mnc⟩
  let db2 := { db1 with
    mobileNetworkInfos := db1.mobileNetworkInfos ++ [reading]
    nextId := db1.nextId + 1 }
  let sample : ConnectivityInfo := ⟨db2.nextId, device.id, "mobile", false,
    some reading.id⟩
  let db3 := { db2 with
    connectivityInfos := db2.connectivityInfos ++ [sample]
    nextId := db2.nextId + 1 }
  -- the mechanism lookup and the contact query read tables the creates above
  -- never touch, so they are phrased over `db1`'s (equal) user/contact lists
  if userAlertModeKey db1.users user.id = some "auto_alert" then
    let db4 := { db3 with emails := db3.emails ++
      [⟨emergencyRecipient db1.contacts user, "Low Signal Alert",
        some "Your device has low signal."⟩] }
    (.ok device.id lastPingedOut true none, db4)
  else if userAlertModeKey db1.users user.id = some "manual_alert" then
    let alert : Alert := ⟨db3.nextId, user.id, device.id, some sample.id,
      .LOW_SIGNAL, "Low signal detected on your device", .PENDING,
      .manual_alert, none⟩
    let db4 := { db3 with
      alerts := db3.alerts ++ [alert]
      nextId := db3.nextId + 1 }
    (.ok device.id lastPingedOut true (some alert), db4)
  else
    (.ok device.id lastPingedOut true none, db3)

/-- The low-signal arm of the ping handler.  The code passes `parsedDbm`
and `parsedLevel` to the `mobileNetworkInfo.create` unconditionally; when
either is `NaN` (its field absent or non-numeric — possible here because
the other field alone can make the ping low-signal), Prisma rejects `NaN`
for the `Int?` columns `signalDbm`/`signalLevel` with a validation error,
the handler's `catch` answers 500 ("Server error"), and no reading, sample,
alert or email is persisted — only the `lastPinged` update, which happened
before this branch, survives. -/
def pingLowSignalBranch (db1 : PingDB) (user : ReqUser) (body : PingRequest)
    (device : DeviceInfo) (lastPingedOut : Option ℤ) : PingResponse × PingDB :=
  match jsParseInt body.signalDbm, jsParseInt body.signalLevel with
  | some parsedDbm, some parsedLevel =>
    pingPersistAndDispatch db1 user body device lastPingedOut parsedDbm parsedLevel
  | none, _ => (.serverError "Server error", db1)
  | _, none => (.serverError "Server error", db1)

/-- The ping handler after the `findFirst` device lookup resolved: update
`lastPinged` when due, then either take the low-signal arm or answer with
no further side effect. -/
def pingWithDevice (db : PingDB) (user : ReqUser) (body : PingRequest) (now : ℤ) :
    Option DeviceInfo → PingResponse × PingDB
  | none => (.notFound "Device not found or not owned by user", db)
  | some device =>
    let shouldUpdate := shouldUpdateLastPinged device now
    let db1 := { db with devices :=
      (if shouldUpdate then
        db.devices.map (fun d =>
          if d.id = device.id then { d with lastPinged := some now } else d)
       else db.devices) }
    let lastPingedOut : Option ℤ := if shouldUpdate then some now else device.lastPinged
    if isLowSignal body.signalDbm body.signalLevel then
      pingLowSignalBranch db1 user body device lastPingedOut
    else
      (.ok device.id lastPingedOut false none, db1)

/-- `POST /api/connectivity/ping` (part_002, lines 427–548). -/
def pingHandler (db : PingDB) (user : ReqUser) (body : PingRequest) (now : ℤ) :
    PingResponse × PingDB :=
  match body.deviceId with
  | none => (.badRequest "deviceId is required", db)
  | some deviceId =>
    pingWithDevice db user body now
      (db.devices.find? (fun d =>
        decide (d.id = deviceId) && decide (d.userId = some user.id)))

/-- A manual low-signal alert in its initial `PENDING` state. -/
def pendingAlertRow : Alert :=
  ⟨1, 7, 2, none, .LOW_SIGNAL, "Low signal detected on your device",
    .PENDING, .manual_alert, none⟩

/-- A store with one device (id 2) owned by user 7, who is on
`auto_alert` and has one EMERGENCY contact. -/
def c4db : PingDB :=
  ⟨[⟨2, some 7, none⟩], [⟨7, "user@example.com", some "auto_alert"⟩],
    [⟨7, .EMERGENCY, "sos@example.com"⟩], [], [], [], [], 10⟩

/-- A store with one device owned by user 7 who has no alert mode
configured. -/
def c10db : PingDB :=
  ⟨[⟨2, some 7, none⟩], [⟨7, "user@example.com", none⟩], [], [], [], [], [], 10⟩

lemma toRad_zero : toRad 0 = 0 := by simp [toRad]

/-- The haversine distance of a point to itself is zero. -/
lemma haversineDistance_self (lat lon : ℚ) : haversineDistance lat lon lat lon = 0 := by
  simp [haversineDistance, sub_self, toRad_zero, atan2, Real.sqrt_one]

/-- At latitude 90° the longitude term of the haversine formula is wiped out
by `cos (π/2) = 0`, so any two points there are at distance zero. -/
lemma haversineDistance_pole (lon1 lon2 : ℚ) :
    haversineDistance 90 lon1 90 lon2 = 0 := by
  have hcos : Real.cos (toRad 90) = 0 := by
    have h : toRad 90 = Real.pi / 2 := by
      unfold toRad; push_cast; ring
    rw [h, Real.cos_pi_div_two]
  simp [haversineDistance, sub_self, toRad_zero, hcos, atan2, Real.sqrt_one]

lemma firstWithinDistance_eq_none (lat lon maxD : ℚ) (l : List Location)
    (h : ∀ loc ∈ l,
      ¬ haversineDistance lat lon loc.latitude loc.longitude ≤ ((maxD : ℚ) : ℝ)) :
    firstWithinDistance lat lon maxD l = none := by
  induction l with
  | nil => simp [firstWithinDistance]
  | cons x xs ih =>
    simp only [firstWithinDistance]
    rw [if_neg (h x (List.mem_cons_self x xs))]
    exact ih fun loc hm => h loc (List.mem_cons_of_mem x hm)

lemma firstWithinDistance_spec (lat lon maxD : ℚ) (l : List Location) (loc : Location)
    (h : firstWithinDistance lat lon maxD l = some loc) :
    loc ∈ l ∧ haversineDistance lat lon loc.latitude loc.longitude ≤ ((maxD : ℚ) : ℝ) := by
  induction l with
  | nil => simp [firstWithinDistance] at h
  | cons x xs ih =>
    simp only [firstWithinDistance] at h
    by_cases hd : haversineDistance lat lon x.latitude x.longitude ≤ ((maxD : ℚ) : ℝ)
    · rw [if_pos hd] at h
      obtain rfl := Option.some.inj h
      exact ⟨List.mem_cons_self _ _, hd⟩
    · rw [if_neg hd] at h
      obtain ⟨hm, hle⟩ := ih h
      exact ⟨List.mem_cons_of_mem x hm, hle⟩

lemma firstWithinDistance_isSome (lat lon maxD : ℚ) (l : List Location) (x : Location)
    (hx : x ∈ l)
    (hd : haversineDistance lat lon x.latitude x.longitude ≤ ((maxD : ℚ) : ℝ)) :
    ∃ loc, firstWithinDistance lat lon maxD l = some loc := by
  induction l with
  | nil => cases hx
  | cons y ys ih =>
    simp only [firstWithinDistance]
    by_cases hy : haversineDistance lat lon y.latitude y.longitude ≤ ((maxD : ℚ) : ℝ)
    · exact ⟨y, if_pos hy⟩
    · rw [if_neg hy]
      rcases List.mem_cons.mp hx with rfl | hmem
      · exact absurd hd hy
      · exact ih hmem

lemma getOrCreate_found (db : LocationDB) (lat lon : ℚ) (accuracy : Option ℚ)
    (loc : Location) (h : findNearbyLocation db.locations lat lon = some loc) :
    getOrCreateFuzzyLocation db lat lon accuracy = (loc, db) := by
  unfold getOrCreateFuzzyLocation
  rw [h]

lemma getOrCreate_notFound (db : LocationDB) (lat lon : ℚ) (accuracy : Option ℚ)
    (h : findNearbyLocation db.locations lat lon = none) :
    getOrCreateFuzzyLocation db lat lon accuracy =
      (⟨db.nextId, lat, lon, accuracy⟩,
        ⟨db.locations ++ [⟨db.nextId, lat, lon, accuracy⟩], db.nextId + 1⟩) := by
  unfold getOrCreateFuzzyLocation
  rw [h]

/-- C1, counterexample.  The stored Location (90°, 0°) is at haversine
distance 0 (≤ the 15 m threshold) from the target (90°, 0.0003°) — both are
the north pole — yet `getOrCreateFuzzyLocation` creates and returns a brand
new row, because the bounding-box pre-filter compares raw coordinate
differences (0.0003 > 0.00015) and never reaches the distance check.  This
refutes the claim that every target within the threshold of a stored
Location is matched to it. -/
theorem C1_counterexample :
    (∃ loc ∈ poleDB.locations,
      haversineDistance 90 (3/10000) loc.latitude loc.longitude ≤ ((15 : ℚ) : ℝ)) ∧
    (getOrCreateFuzzyLocation poleDB 90 (3/10000) none).1 ∉ poleDB.locations ∧
    (getOrCreateFuzzyLocation poleDB 90 (3/10000) none).2.locations.length = 2 := by
  have hfilter :
      poleDB.locations.filter (inBoundingBox 90 (3/10000)) = [] := by
    simp only [poleDB, List.filter, inBoundingBox]
    norm_num
  have hfind : findNearbyLocation poleDB.locations 90 (3/10000) = none := by
    rw [findNearbyLocation, hfilter]
    simp [firstWithinDistance]
  rw [getOrCreate_notFound poleDB 90 (3/10000) none hfind]
  refine ⟨⟨⟨0, 90, 0, none⟩, by simp [poleDB], ?_⟩, ?_, ?_⟩
  · rw [haversineDistance_pole]
    norm_num
  · simp [poleDB]
  · simp [poleDB]

/-- C1 as amended: the find-or-create guarantee holds once the stored
Location is additionally required to pass the bounding-box pre-filter.
(1) If some stored Location lies inside the 0.00015° bounding box of the
target and within 15 m haversine distance, the call leaves the store
unchanged and returns an existing stored Location, itself within 15 m of
the target.  (2) If every stored Location is farther than 15 m, a new
Location with the given coordinates and accuracy is created, appended to
the store and returned. -/
theorem C1_fuzzyLocation_amended (db : LocationDB) (lat lon : ℚ) (accuracy : Option ℚ) :
    ((∃ loc ∈ db.locations, inBoundingBox lat lon loc = true ∧
        haversineDistance lat lon loc.latitude loc.longitude ≤ ((15 : ℚ) : ℝ)) →
      (getOrCreateFuzzyLocation db lat lon accuracy).2 = db ∧
      (getOrCreateFuzzyLocation db lat lon accuracy).1 ∈ db.locations ∧
      haversineDistance lat lon (getOrCreateFuzzyLocation db lat lon accuracy).1.latitude
        (getOrCreateFuzzyLocation db lat lon accuracy).1.longitude ≤ ((15 : ℚ) : ℝ)) ∧
    ((∀ loc ∈ db.locations,
        ((15 : ℚ) : ℝ) < haversineDistance lat lon loc.latitude loc.longitude) →
      (getOrCreateFuzzyLocation db lat lon accuracy).1 = ⟨db.nextId, lat, lon, accuracy⟩ ∧
      (getOrCreateFuzzyLocation db lat lon accuracy).2.locations
        = db.locations ++ [⟨db.nextId, lat, lon, accuracy⟩] ∧
      (getOrCreateFuzzyLocation db lat lon accuracy).2.nextId = db.nextId + 1) := by
  constructor
  · rintro ⟨loc, hmem, hbox, hdist⟩
    obtain ⟨loc', hfw⟩ := firstWithinDistance_isSome lat lon 15
      (db.locations.filter (inBoundingBox lat lon)) loc
      (List.mem_filter.mpr ⟨hmem, hbox⟩) hdist
    have hspec := firstWithinDistance_spec lat lon 15 _ loc' hfw
    have hfind : findNearbyLocation db.locations lat lon = some loc' := hfw
    rw [getOrCreate_found db lat lon accuracy loc' hfind]
    exact ⟨rfl, (List.mem_filter.mp hspec.1).1, hspec.2⟩
  · intro h
    have hnone : findNearbyLocation db.locations lat lon = none := by
      apply firstWithinDistance_eq_none
      intro loc hm
      exact not_le.mpr (h loc (List.mem_filter.mp hm).1)
    rw [getOrCreate_notFound db lat lon accuracy hnone]
    exact ⟨rfl, rfl, rfl⟩

/-- Witness for `C1_fuzzyLocation_amended`: both branches instantiated.
A store holding (30°, 31°) matches a call at the same point (distance 0,
inside the box) and is returned unchanged; a call on an empty store creates
the new row. -/
theorem C1_fuzzyLocation_amended_witness :
    ((getOrCreateFuzzyLocation ⟨[⟨0, 30, 31, none⟩], 1⟩ 30 31 none).2
        = ⟨[⟨0, 30, 31, none⟩], 1⟩ ∧
      (getOrCreateFuzzyLocation ⟨[⟨0, 30, 31, none⟩], 1⟩ 30 31 none).1
        ∈ ([⟨0, 30, 31, none⟩] : List Location) ∧
      haversineDistance 30 31
        (getOrCreateFuzzyLocation ⟨[⟨0, 30, 31, none⟩], 1⟩ 30 31 none).1.latitude
        (getOrCreateFuzzyLocation ⟨[⟨0, 30, 31, none⟩], 1⟩ 30 31 none).1.longitude
        ≤ ((15 : ℚ) : ℝ)) ∧
    ((getOrCreateFuzzyLocation ⟨[], 5⟩ 30 31 none).1 = ⟨5, 30, 31, none⟩ ∧
      (getOrCreateFuzzyLocation ⟨[], 5⟩ 30 31 none).2.locations
        = [⟨5, 30, 31, none⟩]) := by
  constructor
  · exact (C1_fuzzyLocation_amended ⟨[⟨0, 30, 31, none⟩], 1⟩ 30 31 none).1
      ⟨⟨0, 30, 31, none⟩, by simp, by simp [inBoundingBox]; norm_num,
        by rw [haversineDistance_self]; norm_num⟩
  · have h := (C1_fuzzyLocation_amended ⟨[], 5⟩ 30 31 none).2 (by simp)
    exact ⟨h.1, h.2.1⟩

/-- C6. The classifier's four bands, characterised exactly: `Excellent` iff
dBm ≥ −70, `Good` iff −85 ≤ dBm < −70, `Weak` iff −100 ≤ dBm < −85,
`No Signal` (the spec's `NoSignal` label, spelled with a space in the
source) iff dBm < −100; together with the six concrete values quoted by the
spec. -/
theorem C6_classifySignal_bands (d : ℚ) :
    (classifySignal d = "Excellent" ↔ -70 ≤ d) ∧
    (classifySignal d = "Good" ↔ -85 ≤ d ∧ d < -70) ∧
    (classifySignal d = "Weak" ↔ -100 ≤ d ∧ d < -85) ∧
    (classifySignal d = "No Signal" ↔ d < -100) ∧
    classifySignal (-70) = "Excellent" ∧ classifySignal (-71) = "Good" ∧
    classifySignal (-65) = "Excellent" ∧ classifySignal (-80) = "Good" ∧
    classifySignal (-95) = "Weak" ∧ classifySignal (-120) = "No Signal" := by
  have hbands : (classifySignal d = "Excellent" ↔ -70 ≤ d) ∧
      (classifySignal d = "Good" ↔ -85 ≤ d ∧ d < -70) ∧
      (classifySignal d = "Weak" ↔ -100 ≤ d ∧ d < -85) ∧
      (classifySignal d = "No Signal" ↔ d < -100) := by
    rcases le_or_lt (-70 : ℚ) d with h1 | h1
    · have hv : classifySignal d = "Excellent" := by
        unfold classifySignal
        simp only [ge_iff_le]
        rw [if_pos h1]
      rw [hv]
      refine ⟨iff_of_true rfl h1, iff_of_false (by decide) ?_,
        iff_of_false (by decide) ?_, iff_of_false (by decide) ?_⟩
      · rintro ⟨-, hb⟩; linarith
      · rintro ⟨-, hb⟩; linarith
      · intro hb; linarith
    · rcases le_or_lt (-85 : ℚ) d with h2 | h2
      · have hv : classifySignal d = "Good" := by
          unfold classifySignal
          simp only [ge_iff_le]
          rw [if_neg (not_le.mpr h1), if_pos h2]
        rw [hv]
        refine ⟨iff_of_false (by decide) (not_le.mpr h1), iff_of_true rfl ⟨h2, h1⟩,
          iff_of_false (by decide) ?_, iff_of_false (by decide) ?_⟩
        · rintro ⟨-, hb⟩; linarith
        · intro hb; linarith
      · rcases le_or_lt (-100 : ℚ) d with h3 | h3
        · have hv : classifySignal d = "Weak" := by
            unfold classifySignal
            simp only [ge_iff_le]
            rw [if_neg (not_le.mpr h1), if_neg (not_le.mpr h2), if_pos h3]
          rw [hv]
          refine ⟨iff_of_false (by decide) (not_le.mpr h1), iff_of_false (by decide) ?_,
            iff_of_true rfl ⟨h3, h2⟩, iff_of_false (by decide) ?_⟩
          · rintro ⟨hb, -⟩; linarith
          · intro hb; linarith
        · have hv : classifySignal d = "No Signal" := by
            unfold classifySignal
            simp only [ge_iff_le]
            rw [if_neg (not_le.mpr h1), if_neg (not_le.mpr h2), if_neg (not_le.mpr h3)]
          rw [hv]
          refine ⟨iff_of_false (by decide) ?_, iff_of_false (by decide) ?_,
            iff_of_false (by decide) ?_, iff_of_true rfl h3⟩
          · intro hb; linarith
          · rintro ⟨hb, -⟩; linarith
          · rintro ⟨hb, -⟩; linarith
  exact ⟨hbands.1, hbands.2.1, hbands.2.2.1, hbands.2.2.2,
    by decide, by decide, by decide, by decide, by decide, by decide⟩

/-- C5, counterexample.  With no dBm and a coarse level of 1.5, the code's
`parseInt` truncation makes the ping low-signal (`parseInt(1.5) = 1 ≤ 1`),
while the claim's criterion `level ≤ 1` on the raw value says it is not
(1.5 > 1). -/
theorem C5_counterexample :
    isLowSignal none (some (3/2)) = true ∧ ¬ specLowSignal none (some (3/2)) := by
  constructor
  · norm_num [isLowSignal, jsParseInt, jsTrunc]
  · rintro (⟨q, hq, _⟩ | ⟨q, hq, hle⟩)
    · exact Option.noConfusion hq
    · obtain rfl := Option.some.inj hq
      norm_num at hle

lemma jsTrunc_le_neg100 (q : ℚ) : jsTrunc q ≤ -100 ↔ q ≤ -100 := by
  unfold jsTrunc
  split_ifs with h
  · rw [Int.ceil_le]
    norm_num
  · push_neg at h
    have h0 : (0 : ℤ) ≤ ⌊q⌋ := Int.floor_nonneg.mpr h
    constructor
    · intro hle; omega
    · intro hle; linarith

/-- C5 as amended: `isLowSignal` is true iff (dBm is present and ≤ −100, a
criterion `parseInt`'s truncation leaves unchanged) or (level is present
and its truncation toward zero is ≤ 1); an absent value makes its criterion
false and the two criteria are OR'd.  The spec's quoted instances all hold:
`isLowSignal(dBm=−100)` is true, `isLowSignal(dBm=−99)` is false,
`isLowSignal(level=1)` is true regardless of dBm, and
`isLowSignal(null, null)` is false. -/
theorem C5_isLowSignal_amended (dBm level : Option ℚ) :
    (isLowSignal dBm level = true ↔
      (∃ q, dBm = some q ∧ q ≤ -100) ∨ (∃ q, level = some q ∧ jsTrunc q ≤ 1)) ∧
    isLowSignal (some (-100)) none = true ∧
    isLowSignal (some (-99)) none = false ∧
    isLowSignal dBm (some 1) = true ∧
    isLowSignal none none = false := by
  refine ⟨?_, by decide, by decide, ?_, by rfl⟩
  · cases dBm with
    | none =>
      cases level with
      | none => simp [isLowSignal, jsParseInt]
      | some l => simp [isLowSignal, jsParseInt]
    | some q =>
      cases level with
      | none => simp [isLowSignal, jsParseInt, jsTrunc_le_neg100]
      | some l => simp [isLowSignal, jsParseInt, jsTrunc_le_neg100]
  · cases dBm with
    | none => norm_num [isLowSignal, jsParseInt, jsTrunc]
    | some q => simp [isLowSignal, jsParseInt, jsTrunc]

lemma classifyByCarrier_notFound (db : SignalDB) (lat lng maxD : ℚ)
    (h : findNearbyLocation db.locations lat lng maxD = none) :
    classifySignalByCarrier db lat lng maxD = [] := by
  unfold classifySignalByCarrier
  rw [h]

lemma classifyByCarrier_found (db : SignalDB) (lat lng maxD : ℚ) (loc : Location)
    (h : findNearbyLocation db.locations lat lng maxD = some loc) :
    classifySignalByCarrier db lat lng maxD =
      (groupLogs (db.connectivityInfos.filter
        (fun s => decide (s.locationId = some loc.id) && s.mobileNetworkInfo.isSome))).map
        (fun g => ⟨g.1, jsRound (g.2.1 / (g.2.2 : ℚ)),
          classifySignal (g.2.1 / (g.2.2 : ℚ)), g.2.2⟩) := by
  unfold classifySignalByCarrier
  rw [h]

lemma specClassifyByCarrier_found (db : SignalDB) (lat lng maxD : ℚ) (loc : Location)
    (h : findNearbyLocation db.locations lat lng maxD = some loc) :
    specClassifySignalByCarrier db lat lng maxD =
      ((db.connectivityInfos.filter
        (fun s => decide (s.locationId = some loc.id) && s.mobileNetworkInfo.isSome)).foldl
          specGroupStep []).map
        (fun g => ⟨g.1, jsRound (g.2.1 / (g.2.2 : ℚ)),
          classifySignal (g.2.1 / (g.2.2 : ℚ)), g.2.2⟩) := by
  unfold specClassifySignalByCarrier
  rw [h]

/-- The one stored location used by the concrete aggregation examples is
matched by a lookup at its own coordinates (distance 0 ≤ 15 m). -/
lemma findNearby_303115 :
    findNearbyLocation [⟨0, 30, 31, none⟩] 30 31 15 = some ⟨0, 30, 31, none⟩ := by
  rw [findNearbyLocation]
  have hfil : List.filter (inBoundingBox 30 31) [⟨0, 30, 31, none⟩]
      = [⟨0, 30, 31, none⟩] := by
    simp only [List.filter, inBoundingBox]
    norm_num
  rw [hfil]
  simp only [firstWithinDistance]
  rw [if_pos]
  rw [haversineDistance_self]
  norm_num

lemma addSample_pos (groups : List (String × ℚ × ℕ)) (c : String) (dbm : ℚ)
    (h : ∀ g ∈ groups, 0 < g.2.2) : ∀ g ∈ addSample groups c dbm, 0 < g.2.2 := by
  unfold addSample
  split_ifs with hc
  · intro g hg
    obtain ⟨g', hg', rfl⟩ := List.mem_map.mp hg
    by_cases he : g'.1 = c
    · simp only [if_pos he]
      omega
    · simp only [if_neg he]
      exact h g' hg'
  · intro g hg
    rcases List.mem_append.mp hg with hm | hm
    · exact h g hm
    · rcases List.mem_singleton.mp hm with rfl
      exact Nat.zero_lt_one

lemma groupStep_pos (groups : List (String × ℚ × ℕ)) (log : SigSample)
    (h : ∀ g ∈ groups, 0 < g.2.2) : ∀ g ∈ groupStep groups log, 0 < g.2.2 := by
  rcases log with ⟨locId, mi⟩
  rcases mi with _ | ⟨carrier, dbm⟩
  · exact h
  · rcases carrier with _ | c
    · rcases dbm with _ | q
      · exact h
      · exact h
    · rcases dbm with _ | q
      · exact h
      · show ∀ g ∈ (if c = "" then groups else addSample groups (jsToUpper c) q),
          0 < g.2.2
        by_cases he : c = ""
        · rw [if_pos he]; exact h
        · rw [if_neg he]; exact addSample_pos groups (jsToUpper c) q h

lemma foldl_groupStep_pos (logs : List SigSample) :
    ∀ acc, (∀ g ∈ acc, 0 < g.2.2) →
      ∀ g ∈ List.foldl groupStep acc logs, 0 < g.2.2 := by
  induction logs with
  | nil => intro acc h; exact h
  | cons x xs ih =>
    intro acc h
    exact ih (groupStep acc x) (groupStep_pos acc x h)

lemma groupLogs_pos (logs : List SigSample) : ∀ g ∈ groupLogs logs, 0 < g.2.2 :=
  foldl_groupStep_pos logs [] (by simp)

/-- C8, counterexample.  The stored sample has a non-null carrier (the
empty string) and a numeric dBm of −80, so by the claim it should be
collected into a group of count 1; the code's truthiness test
`!info?.carrier` skips it, and the aggregation returns the empty list while
the claim's reading returns one entry. -/
theorem C8_counterexample :
    classifySignalByCarrier emptyCarrierDB 30 31 15 = [] ∧
    specClassifySignalByCarrier emptyCarrierDB 30 31 15 = [⟨"", -80, "Good", 1⟩] ∧
    classifySignalByCarrier emptyCarrierDB 30 31 15 ≠
      specClassifySignalByCarrier emptyCarrierDB 30 31 15 := by
  have h1 : classifySignalByCarrier emptyCarrierDB 30 31 15 = [] := by
    rw [classifyByCarrier_found emptyCarrierDB 30 31 15 ⟨0, 30, 31, none⟩
      findNearby_303115]
    decide
  have h2 : specClassifySignalByCarrier emptyCarrierDB 30 31 15
      = [⟨"", -80, "Good", 1⟩] := by
    rw [specClassifyByCarrier_found emptyCarrierDB 30 31 15 ⟨0, 30, 31, none⟩
      findNearby_303115]
    have hg : (emptyCarrierDB.connectivityInfos.filter
        (fun s => decide (s.locationId = some (Location.mk 0 30 31 none).id) &&
          s.mobileNetworkInfo.isSome)).foldl specGroupStep [] = [("", -80, 1)] := by
      decide
    rw [hg]
    simp only [List.map]
    norm_num [jsRound, classifySignal]
  refine ⟨h1, h2, ?_⟩
  rw [h1, h2]
  decide

/-- C8 as amended: the aggregation resolves the target through the fuzzy
matching step only and returns the empty list when every stored Location is
farther than `maxDistanceMeters` (the pure reader never creates a
Location); qualifying samples are those with a *truthy* (non-null,
non-empty) carrier and numeric dBm, grouped by the carrier name uppercased;
and the spec's worked example holds: three Vodafone samples with dBm −80,
−90, −100 yield `{carrier "VODAFONE", avgDbm −90, quality "Weak",
count 3}`. -/
theorem C8_aggregateByCarrier_amended (db : SignalDB) (lat lng maxD : ℚ) :
    ((∀ loc ∈ db.locations,
        ((maxD : ℚ) : ℝ) < haversineDistance lat lng loc.latitude loc.longitude) →
      classifySignalByCarrier db lat lng maxD = []) ∧
    classifySignalByCarrier vodafoneDB 30 31 15 = [⟨"VODAFONE", -90, "Weak", 3⟩] := by
  constructor
  · intro h
    apply classifyByCarrier_notFound
    apply firstWithinDistance_eq_none
    intro loc hm
    exact not_le.mpr (h loc (List.mem_filter.mp hm).1)
  · rw [classifyByCarrier_found vodafoneDB 30 31 15 ⟨0, 30, 31, none⟩ findNearby_303115]
    have hVU : jsToUpper "Vodafone" = "VODAFONE" := by decide
    have hg : groupLogs (vodafoneDB.connectivityInfos.filter
        (fun s => decide (s.locationId = some (Location.mk 0 30 31 none).id) &&
          s.mobileNetworkInfo.isSome)) = [("VODAFONE", -270, 3)] := by
      simp [groupLogs, groupStep, addSample, hVU, vodafoneDB]
      norm_num
    rw [hg]
    simp only [List.map]
    norm_num [jsRound, classifySignal]

/-- Witness for `C8_aggregateByCarrier_amended`: a store whose only
location is 500+ m away from the target returns the empty aggregation (the
emptiness hypothesis is discharged at that concrete input), and the worked
Vodafone example is restated. -/
theorem C8_aggregateByCarrier_amended_witness :
    classifySignalByCarrier ⟨[], []⟩ 30 31 15 = [] ∧
    classifySignalByCarrier vodafoneDB 30 31 15 = [⟨"VODAFONE", -90, "Weak", 3⟩] :=
  ⟨(C8_aggregateByCarrier_amended ⟨[], []⟩ 30 31 15).1 (by simp),
   (C8_aggregateByCarrier_amended ⟨[], []⟩ 30 31 15).2⟩

/-- C9.  Every aggregation entry reports `avgDbm` as the rounded arithmetic
mean but classifies `quality` from the un-rounded mean; concretely, a group
with mean −70.4 reports `avgDbm = −70` (which itself classifies as
`Excellent`) together with `quality = "Good"`. -/
theorem C9_round_vs_classify :
    (∀ (db : SignalDB) (lat lng maxD : ℚ) (e : CarrierEntry),
      e ∈ classifySignalByCarrier db lat lng maxD →
      ∃ (total : ℚ) (count : ℕ), 0 < count ∧ e.count = count ∧
        e.avgDbm = jsRound (total / (count : ℚ)) ∧
        e.quality = classifySignal (total / (count : ℚ))) ∧
    classifySignalByCarrier meanGapDB 30 31 15 = [⟨"VODAFONE", -70, "Good", 5⟩] ∧
    classifySignal ((-70 : ℤ) : ℚ) = "Excellent" ∧
    "Good" ≠ "Excellent" := by
  refine ⟨?_, ?_, by norm_num [classifySignal], by decide⟩
  · intro db lat lng maxD e he
    rcases hf : findNearbyLocation db.locations lat lng maxD with _ | loc
    · rw [classifyByCarrier_notFound db lat lng maxD hf] at he
      cases he
    · rw [classifyByCarrier_found db lat lng maxD loc hf] at he
      obtain ⟨g, hg, rfl⟩ := List.mem_map.mp he
      exact ⟨g.2.1, g.2.2, groupLogs_pos _ g hg, rfl, rfl, rfl⟩
  · rw [classifyByCarrier_found meanGapDB 30 31 15 ⟨0, 30, 31, none⟩ ?_]
    · have hVU : jsToUpper "Vodafone" = "VODAFONE" := by decide
      have hg : groupLogs (meanGapDB.connectivityInfos.filter
          (fun s => decide (s.locationId = some (Location.mk 0 30 31 none).id) &&
            s.mobileNetworkInfo.isSome)) = [("VODAFONE", -352, 5)] := by
        simp [groupLogs, groupStep, addSample, hVU, meanGapDB]
        norm_num
      rw [hg]
      simp only [List.map]
      norm_num [jsRound, classifySignal]
    · rw [show meanGapDB.locations = [⟨0, 30, 31, none⟩] from rfl]
      exact findNearby_303115

/-- Witness for `C9_round_vs_classify`: the general entry property applied
to the concrete −70.4-mean entry. -/
theorem C9_round_vs_classify_witness :
    ∃ (total : ℚ) (count : ℕ), 0 < count ∧
      (⟨"VODAFONE", -70, "Good", 5⟩ : CarrierEntry).count = count ∧
      (⟨"VODAFONE", -70, "Good", 5⟩ : CarrierEntry).avgDbm
        = jsRound (total / (count : ℚ)) ∧
      (⟨"VODAFONE", -70, "Good", 5⟩ : CarrierEntry).quality
        = classifySignal (total / (count : ℚ)) :=
  C9_round_vs_classify.1 meanGapDB 30 31 15 ⟨"VODAFONE", -70, "Good", 5⟩
    (by rw [C9_round_vs_classify.2.1]; exact List.mem_singleton.mpr rfl)

lemma confirmAlert_pending_mem (db : AlertDB) (u i : ℕ) (t : ℤ) (a' : Alert)
    (hmem : a' ∈ (confirmAlert db u i t).2.alerts) (hp : a'.status = .PENDING) :
    a' ∈ db.alerts := by
  unfold confirmAlert at hmem
  rcases hf : db.alerts.find? (fun x => decide (x.id = i)) with _ | b
  · rw [hf] at hmem
    exact hmem
  · rw [hf] at hmem
    simp only [confirmWithAlert] at hmem
    by_cases h1 : b.userId ≠ u
    · rw [if_pos h1] at hmem; exact hmem
    · rw [if_neg h1] at hmem
      by_cases h2 : b.status ≠ AlertStatus.PENDING
      · rw [if_pos h2] at hmem; exact hmem
      · rw [if_neg h2] at hmem
        have hmem' : a' ∈ db.alerts.map (fun x =>
            if x.id = i then { x with status := .CONFIRMED, resolvedAt := some t }
            else x) := hmem
        obtain ⟨b', hb', heq⟩ := List.mem_map.mp hmem'
        by_cases hid : b'.id = i
        · rw [if_pos hid] at heq
          rw [← heq] at hp
          simp at hp
        · rw [if_neg hid] at heq
          rw [← heq]
          exact hb'

lemma dismissAlert_pending_mem (db : AlertDB) (u i : ℕ) (t : ℤ) (a' : Alert)
    (hmem : a' ∈ (dismissAlert db u i t).2.alerts) (hp : a'.status = .PENDING) :
    a' ∈ db.alerts := by
  unfold dismissAlert at hmem
  rcases hf : db.alerts.find? (fun x => decide (x.id = i)) with _ | b
  · rw [hf] at hmem
    exact hmem
  · rw [hf] at hmem
    simp only [dismissWithAlert] at hmem
    by_cases h1 : b.userId ≠ u
    · rw [if_pos h1] at hmem; exact hmem
    · rw [if_neg h1] at hmem
      by_cases h2 : b.status ≠ AlertStatus.PENDING
      · rw [if_pos h2] at hmem; exact hmem
      · rw [if_neg h2] at hmem
        have hmem' : a' ∈ db.alerts.map (fun x =>
            if x.id = i then { x with status := .DISMISSED, resolvedAt := some t }
            else x) := hmem
        obtain ⟨b', hb', heq⟩ := List.mem_map.mp hmem'
        by_cases hid : b'.id = i
        · rw [if_pos hid] at heq
          rw [← heq] at hp
          simp at hp
        · rw [if_neg hid] at heq
          rw [← heq]
          exact hb'

lemma pingLowSignalBranch_parsed (db1 : PingDB) (u : ReqUser) (body : PingRequest)
    (device : DeviceInfo) (lp : Option ℤ) (pd pl : ℤ)
    (hpd : jsParseInt body.signalDbm = some pd)
    (hpl : jsParseInt body.signalLevel = some pl) :
    pingLowSignalBranch db1 u body device lp
      = pingPersistAndDispatch db1 u body device lp pd pl := by
  unfold pingLowSignalBranch
  rw [hpd, hpl]

lemma pingLowSignalBranch_nan (db1 : PingDB) (u : ReqUser) (body : PingRequest)
    (device : DeviceInfo) (lp : Option ℤ)
    (h : jsParseInt body.signalDbm = none ∨ jsParseInt body.signalLevel = none) :
    pingLowSignalBranch db1 u body device lp = (.serverError "Server error", db1) := by
  unfold pingLowSignalBranch
  rcases hpd : jsParseInt body.signalDbm with _ | pd
  · rcases hpl : jsParseInt body.signalLevel with _ | pl
    · rfl
    · rfl
  · rcases hpl : jsParseInt body.signalLevel with _ | pl
    · rfl
    · rcases h with h | h
      · rw [hpd] at h
        exact Option.noConfusion h
      · rw [hpl] at h
        exact Option.noConfusion h

lemma pingPersistAndDispatch_alerts (db1 : PingDB) (u : ReqUser) (body : PingRequest)
    (device : DeviceInfo) (lp : Option ℤ) (pd pl : ℤ) :
    ∃ newAlerts, (pingPersistAndDispatch db1 u body device lp pd pl).2.alerts
      = db1.alerts ++ newAlerts := by
  simp only [pingPersistAndDispatch]
  by_cases h1 : userAlertModeKey db1.users u.id = some "auto_alert"
  · rw [if_pos h1]
    exact ⟨[], by simp⟩
  · rw [if_neg h1]
    by_cases h2 : userAlertModeKey db1.users u.id = some "manual_alert"
    · rw [if_pos h2]
      exact ⟨_, rfl⟩
    · rw [if_neg h2]
      exact ⟨[], by simp⟩

lemma pingLowSignalBranch_alerts (db1 : PingDB) (u : ReqUser) (body : PingRequest)
    (device : DeviceInfo) (lp : Option ℤ) :
    ∃ newAlerts, (pingLowSignalBranch db1 u body device lp).2.alerts
      = db1.alerts ++ newAlerts := by
  rcases hpd : jsParseInt body.signalDbm with _ | pd
  · rw [pingLowSignalBranch_nan db1 u body device lp (Or.inl hpd)]
    exact ⟨[], by simp⟩
  · rcases hpl : jsParseInt body.signalLevel with _ | pl
    · rw [pingLowSignalBranch_nan db1 u body device lp (Or.inr hpl)]
      exact ⟨[], by simp⟩
    · rw [pingLowSignalBranch_parsed db1 u body device lp pd pl hpd hpl]
      exact pingPersistAndDispatch_alerts db1 u body device lp pd pl

lemma pingHandler_alerts_append (db : PingDB) (u : ReqUser) (body : PingRequest)
    (t : ℤ) :
    ∃ newAlerts, (pingHandler db u body t).2.alerts = db.alerts ++ newAlerts := by
  unfold pingHandler
  rcases hb : body.deviceId with _ | did
  · exact ⟨[], by simp⟩
  · show ∃ newAlerts, (pingWithDevice db u body t (db.devices.find? (fun d =>
        decide (d.id = did) && decide (d.userId = some u.id)))).2.alerts
        = db.alerts ++ newAlerts
    rcases hd : db.devices.find? (fun d =>
        decide (d.id = did) && decide (d.userId = some u.id)) with _ | device
    · rw [hd]
      exact ⟨[], by simp [pingWithDevice]⟩
    · rw [hd]
      simp only [pingWithDevice]
      by_cases hlow : isLowSignal body.signalDbm body.signalLevel = true
      · rw [if_pos hlow]
        exact pingLowSignalBranch_alerts _ u body device _
      · rw [if_neg hlow]
        exact ⟨[], by simp⟩

/-- C2.  A `CONFIRMED` or `DISMISSED` alert is terminal: a further confirm
or dismiss by its owner answers 400 "Alert already handled" and leaves the
whole store (in particular the alert's status and `resolvedAt`) unchanged;
and no operation brings an alert back to `PENDING` — any `PENDING` row
after a confirm or dismiss was already present, and the ping handler only
ever appends alert rows. -/
theorem C2_alert_terminality (db : AlertDB) (userId alertId : ℕ) (now : ℤ) (a : Alert)
    (hfind : db.alerts.find? (fun x => decide (x.id = alertId)) = some a)
    (howner : a.userId = userId)
    (hterminal : a.status = .CONFIRMED ∨ a.status = .DISMISSED) :
    confirmAlert db userId alertId now = (.badRequest "Alert already handled", db) ∧
    dismissAlert db userId alertId now = (.badRequest "Alert already handled", db) ∧
    (∀ (db2 : AlertDB) (u i : ℕ) (t : ℤ) (a' : Alert),
      a' ∈ (confirmAlert db2 u i t).2.alerts → a'.status = .PENDING →
        a' ∈ db2.alerts) ∧
    (∀ (db2 : AlertDB) (u i : ℕ) (t : ℤ) (a' : Alert),
      a' ∈ (dismissAlert db2 u i t).2.alerts → a'.status = .PENDING →
        a' ∈ db2.alerts) ∧
    (∀ (db2 : PingDB) (u : ReqUser) (body : PingRequest) (t : ℤ),
      ∃ newAlerts, (pingHandler db2 u body t).2.alerts = db2.alerts ++ newAlerts) := by
  have hne : a.status ≠ AlertStatus.PENDING := by
    rcases hterminal with ht | ht <;> simp [ht]
  refine ⟨?_, ?_, confirmAlert_pending_mem, dismissAlert_pending_mem,
    pingHandler_alerts_append⟩
  · unfold confirmAlert
    rw [hfind]
    simp only [confirmWithAlert]
    rw [if_neg (not_not_intro howner), if_pos hne]
  · unfold dismissAlert
    rw [hfind]
    simp only [dismissWithAlert]
    rw [if_neg (not_not_intro howner), if_pos hne]

/-- Witness for `C2_alert_terminality`: a store holding one `CONFIRMED`
alert owned by user 7; both endpoints answer 400 and change nothing. -/
theorem C2_alert_terminality_witness :
    confirmAlert ⟨[{ pendingAlertRow with
        status := .CONFIRMED
        resolvedAt := some 5 }], []⟩ 7 1 1000
      = (.badRequest "Alert already handled",
         ⟨[{ pendingAlertRow with
            status := .CONFIRMED
            resolvedAt := some 5 }], []⟩) ∧
    dismissAlert ⟨[{ pendingAlertRow with
        status := .CONFIRMED
        resolvedAt := some 5 }], []⟩ 7 1 1000
      = (.badRequest "Alert already handled",
         ⟨[{ pendingAlertRow with
            status := .CONFIRMED
            resolvedAt := some 5 }], []⟩) := by
  have h := C2_alert_terminality
    ⟨[{ pendingAlertRow with status := .CONFIRMED, resolvedAt := some 5 }], []⟩
    7 1 1000 { pendingAlertRow with status := .CONFIRMED, resolvedAt := some 5 }
    rfl rfl (Or.inl rfl)
  exact ⟨h.1, h.2.1⟩

/-- C3 (the code diverges from it).  On a `PENDING` alert owned by the
caller, the confirm handler does move the row to `CONFIRMED` with
`resolvedAt` stamped, but then crashes on the unimported `sendEmail`
identifier: the endpoint answers 500 — not the claimed 200 — and no email
is sent.  The 404 branch (missing alert, and an alert owned by someone
else, indistinguishably) and the 400 "already handled" branch behave as
claimed. -/
theorem C3_confirm_code_bug :
    confirmAlert ⟨[pendingAlertRow], []⟩ 7 1 1000
      = (.serverError "sendEmail is not defined",
         ⟨[{ pendingAlertRow with
            status := .CONFIRMED
            resolvedAt := some 1000 }], []⟩) ∧
    (confirmAlert ⟨[pendingAlertRow], []⟩ 7 1 1000).2.emails = [] ∧
    confirmAlert ⟨[pendingAlertRow], []⟩ 7 99 1000
      = (.notFound "Alert not found or access denied", ⟨[pendingAlertRow], []⟩) ∧
    confirmAlert ⟨[pendingAlertRow], []⟩ 8 1 1000
      = (.notFound "Alert not found or access denied", ⟨[pendingAlertRow], []⟩) ∧
    confirmAlert ⟨[{ pendingAlertRow with
        status := .CONFIRMED
        resolvedAt := some 5 }], []⟩ 7 1 1000
      = (.badRequest "Alert already handled",
         ⟨[{ pendingAlertRow with
            status := .CONFIRMED
            resolvedAt := some 5 }], []⟩) := by
  exact ⟨rfl, rfl, rfl, rfl, rfl⟩

lemma pingHandler_low_eq (db : PingDB) (user : ReqUser) (body : PingRequest)
    (now : ℤ) (did : ℕ) (device : DeviceInfo)
    (hb : body.deviceId = some did)
    (hd : db.devices.find? (fun d =>
      decide (d.id = did) && decide (d.userId = some user.id)) = some device)
    (hlow : isLowSignal body.signalDbm body.signalLevel = true) :
    pingHandler db user body now = pingLowSignalBranch
      { db with devices :=
        (if shouldUpdateLastPinged device now then
          db.devices.map (fun d =>
            if d.id = device.id then { d with lastPinged := some now } else d)
         else db.devices) }
      user body device
      (if shouldUpdateLastPinged device now then some now else device.lastPinged) := by
  unfold pingHandler
  rw [hb]
  show pingWithDevice db user body now (db.devices.find? (fun d =>
    decide (d.id = did) && decide (d.userId = some user.id))) = _
  rw [hd]
  simp only [pingWithDevice]
  rw [if_pos hlow]

lemma pingHandler_notlow_eq (db : PingDB) (user : ReqUser) (body : PingRequest)
    (now : ℤ) (did : ℕ) (device : DeviceInfo)
    (hb : body.deviceId = some did)
    (hd : db.devices.find? (fun d =>
      decide (d.id = did) && decide (d.userId = some user.id)) = some device)
    (hnotlow : isLowSignal body.signalDbm body.signalLevel = false) :
    pingHandler db user body now =
      (.ok device.id
        (if shouldUpdateLastPinged device now then some now else device.lastPinged)
        false none,
       { db with devices :=
        (if shouldUpdateLastPinged device now then
          db.devices.map (fun d =>
            if d.id = device.id then { d with lastPinged := some now } else d)
         else db.devices) }) := by
  unfold pingHandler
  rw [hb]
  show pingWithDevice db user body now (db.devices.find? (fun d =>
    decide (d.id = did) && decide (d.userId = some user.id))) = _
  rw [hd]
  simp only [pingWithDevice]
  rw [if_neg (by simp [hnotlow])]

lemma pingPersistAndDispatch_auto (db1 : PingDB) (u : ReqUser) (body : PingRequest)
    (device : DeviceInfo) (lp : Option ℤ) (pd pl : ℤ)
    (h : userAlertModeKey db1.users u.id = some "auto_alert") :
    pingPersistAndDispatch db1 u body device lp pd pl =
      (.ok device.id lp true none,
       { db1 with
          mobileNetworkInfos := db1.mobileNetworkInfos ++
            [⟨db1.nextId, body.carrier, body.networkType, some pd, some pl,
              body.mcc, body.mnc⟩]
          connectivityInfos := db1.connectivityInfos ++
            [⟨db1.nextId + 1, device.id, "mobile", false, some db1.nextId⟩]
          emails := db1.emails ++
            [⟨emergencyRecipient db1.contacts u, "Low Signal Alert",
              some "Your device has low signal."⟩]
          nextId := db1.nextId + 1 + 1 }) := by
  simp only [pingPersistAndDispatch]
  rw [if_pos h]

lemma pingPersistAndDispatch_manual (db1 : PingDB) (u : ReqUser) (body : PingRequest)
    (device : DeviceInfo) (lp : Option ℤ) (pd pl : ℤ)
    (h : userAlertModeKey db1.users u.id = some "manual_alert") :
    pingPersistAndDispatch db1 u body device lp pd pl =
      (.ok device.id lp true
        (some ⟨db1.nextId + 1 + 1, u.id, device.id, some (db1.nextId + 1),
          .LOW_SIGNAL, "Low signal detected on your device", .PENDING,
          .manual_alert, none⟩),
       { db1 with
          mobileNetworkInfos := db1.mobileNetworkInfos ++
            [⟨db1.nextId, body.carrier, body.networkType, some pd, some pl,
              body.mcc, body.mnc⟩]
          connectivityInfos := db1.connectivityInfos ++
            [⟨db1.nextId + 1, device.id, "mobile", false, some db1.nextId⟩]
          alerts := db1.alerts ++
            [⟨db1.nextId + 1 + 1, u.id, device.id, some (db1.nextId + 1),
              .LOW_SIGNAL, "Low signal detected on your device", .PENDING,
              .manual_alert, none⟩]
          nextId := db1.nextId + 1 + 1 + 1 }) := by
  have hne : userAlertModeKey db1.users u.id ≠ some "auto_alert" := by
    simp [h]
  simp only [pingPersistAndDispatch]
  rw [if_neg hne, if_pos h]

lemma pingPersistAndDispatch_other (db1 : PingDB) (u : ReqUser) (body : PingRequest)
    (device : DeviceInfo) (lp : Option ℤ) (pd pl : ℤ)
    (h1 : userAlertModeKey db1.users u.id ≠ some "auto_alert")
    (h2 : userAlertModeKey db1.users u.id ≠ some "manual_alert") :
    pingPersistAndDispatch db1 u body device lp pd pl =
      (.ok device.id lp true none,
       { db1 with
          mobileNetworkInfos := db1.mobileNetworkInfos ++
            [⟨db1.nextId, body.carrier, body.networkType, some pd, some pl,
              body.mcc, body.mnc⟩]
          connectivityInfos := db1.connectivityInfos ++
            [⟨db1.nextId + 1, device.id, "mobile", false, some db1.nextId⟩]
          nextId := db1.nextId + 1 + 1 }) := by
  simp only [pingPersistAndDispatch]
  rw [if_neg h1, if_neg h2]

/-- C4, counterexample.  A ping with `signalDbm = −120` and no
`signalLevel` is evaluated low-signal, yet although the user is on
`auto_alert` no email is sent (and no alert or row of any kind is
created): `parseInt(undefined)` is `NaN`, the `mobileNetworkInfo.create`
rejects `NaN` for the `Int?` column, and the endpoint answers 500.  This
refutes the claim that every low-signal ping under `auto_alert` produces a
notification. -/
theorem C4_counterexample :
    isLowSignal (some (-120)) none = true ∧
    userAlertModeKey c4db.users 7 = some "auto_alert" ∧
    (pingHandler c4db ⟨7, "user@example.com"⟩
      ⟨some 2, some (-120), none, none, none, none, none⟩ 0).1
      = .serverError "Server error" ∧
    (pingHandler c4db ⟨7, "user@example.com"⟩
      ⟨some 2, some (-120), none, none, none, none, none⟩ 0).2.emails
      = c4db.emails ∧
    (pingHandler c4db ⟨7, "user@example.com"⟩
      ⟨some 2, some (-120), none, none, none, none, none⟩ 0).2.alerts
      = c4db.alerts ∧
    (pingHandler c4db ⟨7, "user@example.com"⟩
      ⟨some 2, some (-120), none, none, none, none, none⟩ 0).2.mobileNetworkInfos
      = c4db.mobileNetworkInfos := by
  have h := pingHandler_low_eq c4db ⟨7, "user@example.com"⟩
    ⟨some 2, some (-120), none, none, none, none, none⟩ 0 2 ⟨2, some 7, none⟩
    rfl rfl (by decide)
  rw [pingLowSignalBranch_nan _ ⟨7, "user@example.com"⟩
    ⟨some 2, some (-120), none, none, none, none, none⟩ ⟨2, some 7, none⟩ _
    (Or.inr rfl)] at h
  refine ⟨by decide, rfl, ?_, ?_, ?_, ?_⟩ <;> rw [h]

/-- C4 as amended.  For a low-signal ping on an owned device *whose two
signal fields both parse to integers* (so the Prisma create accepts them),
the alert dispatch obeys the configured mechanism: `auto_alert` sends one
email to the first EMERGENCY contact if any (else the account email) and
creates no Alert row; `manual_alert` creates exactly one `PENDING`,
`LOW_SIGNAL` Alert linked to the user, the device and the
ConnectivitySample persisted by this ping, and sends nothing; any other or
missing key creates no alert and sends nothing.  When either field fails to
parse (absent or non-numeric — possible for a low-signal ping, since one
field alone can trigger it), the create throws on `NaN` and the endpoint
answers 500 with no reading, sample, alert or email persisted. -/
theorem C4_mechanism_dispatch (db : PingDB) (user : ReqUser) (body : PingRequest)
    (now : ℤ) (did : ℕ) (device : DeviceInfo) (pd pl : ℤ)
    (hb : body.deviceId = some did)
    (hd : db.devices.find? (fun d =>
      decide (d.id = did) && decide (d.userId = some user.id)) = some device)
    (hlow : isLowSignal body.signalDbm body.signalLevel = true)
    (hpd : jsParseInt body.signalDbm = some pd)
    (hpl : jsParseInt body.signalLevel = some pl) :
    (userAlertModeKey db.users user.id = some "auto_alert" →
      (pingHandler db user body now).2.alerts = db.alerts ∧
      (pingHandler db user body now).2.emails = db.emails ++
        [⟨emergencyRecipient db.contacts user, "Low Signal Alert",
          some "Your device has low signal."⟩]) ∧
    (userAlertModeKey db.users user.id = some "manual_alert" →
      (pingHandler db user body now).2.emails = db.emails ∧
      ∃ a s, (pingHandler db user body now).2.alerts = db.alerts ++ [a] ∧
        a.status = .PENDING ∧ a.type = .LOW_SIGNAL ∧ a.userId = user.id ∧
        a.deviceId = device.id ∧ a.mechanism = .manual_alert ∧
        a.connectivityInfoId = some s.id ∧ s.deviceId = device.id ∧
        (pingHandler db user body now).2.connectivityInfos
          = db.connectivityInfos ++ [s]) ∧
    (∀ k, userAlertModeKey db.users user.id = k → k ≠ some "auto_alert" →
      k ≠ some "manual_alert" →
      (pingHandler db user body now).2.alerts = db.alerts ∧
      (pingHandler db user body now).2.emails = db.emails) ∧
    (∀ (db2 : PingDB) (u2 : ReqUser) (b2 : PingRequest) (t2 : ℤ) (did2 : ℕ)
        (dev2 : DeviceInfo),
      b2.deviceId = some did2 →
      db2.devices.find? (fun d =>
        decide (d.id = did2) && decide (d.userId = some u2.id)) = some dev2 →
      isLowSignal b2.signalDbm b2.signalLevel = true →
      (jsParseInt b2.signalDbm = none ∨ jsParseInt b2.signalLevel = none) →
      (pingHandler db2 u2 b2 t2).1 = .serverError "Server error" ∧
      (pingHandler db2 u2 b2 t2).2.mobileNetworkInfos = db2.mobileNetworkInfos ∧
      (pingHandler db2 u2 b2 t2).2.connectivityInfos = db2.connectivityInfos ∧
      (pingHandler db2 u2 b2 t2).2.alerts = db2.alerts ∧
      (pingHandler db2 u2 b2 t2).2.emails = db2.emails) := by
  have hping := pingHandler_low_eq db user body now did device hb hd hlow
  refine ⟨?_, ?_, ?_, ?_⟩
  · intro hmech
    rw [hping, pingLowSignalBranch_parsed _ user body device _ pd pl hpd hpl,
      pingPersistAndDispatch_auto]
    · exact ⟨rfl, rfl⟩
    · exact hmech
  · intro hmech
    rw [hping, pingLowSignalBranch_parsed _ user body device _ pd pl hpd hpl,
      pingPersistAndDispatch_manual]
    · exact ⟨rfl, _, _, rfl, rfl, rfl, rfl, rfl, rfl, rfl, rfl, rfl⟩
    · exact hmech
  · intro k hk hka hkm
    rw [hping, pingLowSignalBranch_parsed _ user body device _ pd pl hpd hpl,
      pingPersistAndDispatch_other]
    · exact ⟨rfl, rfl⟩
    · rw [show userAlertModeKey
        ({ db with devices :=
          (if shouldUpdateLastPinged device now then
            db.devices.map (fun d =>
              if d.id = device.id then { d with lastPinged := some now } else d)
           else db.devices) } : PingDB).users user.id
        = userAlertModeKey db.users user.id from rfl, hk]
      exact hka
    · rw [show userAlertModeKey
        ({ db with devices :=
          (if shouldUpdateLastPinged device now then
            db.devices.map (fun d =>
              if d.id = device.id then { d with lastPinged := some now } else d)
           else db.devices) } : PingDB).users user.id
        = userAlertModeKey db.users user.id from rfl, hk]
      exact hkm
  · intro db2 u2 b2 t2 did2 dev2 hb2 hd2 hlow2 hnan
    have hping2 := pingHandler_low_eq db2 u2 b2 t2 did2 dev2 hb2 hd2 hlow2
    rw [pingLowSignalBranch_nan _ _ _ _ _ hnan] at hping2
    rw [hping2]
    exact ⟨rfl, rfl, rfl, rfl, rfl⟩

/-- Witness for `C4_mechanism_dispatch`: a ping with `signalDbm = −120`
and `signalLevel = 0` (both fields numeric) on `c4db` notifies the
emergency contact and creates no alert. -/
theorem C4_mechanism_dispatch_witness :
    (pingHandler c4db ⟨7, "user@example.com"⟩
      ⟨some 2, some (-120), some 0, none, none, none, none⟩ 0).2.alerts
      = c4db.alerts ∧
    (pingHandler c4db ⟨7, "user@example.com"⟩
      ⟨some 2, some (-120), some 0, none, none, none, none⟩ 0).2.emails
      = c4db.emails ++
        [⟨emergencyRecipient c4db.contacts ⟨7, "user@example.com"⟩,
          "Low Signal Alert", some "Your device has low signal."⟩] :=
  (C4_mechanism_dispatch c4db ⟨7, "user@example.com"⟩
    ⟨some 2, some (-120), some 0, none, none, none, none⟩ 0 2 ⟨2, some 7, none⟩
    (-120) 0 rfl rfl (by decide) (by decide) (by decide)).1 rfl

/-- C7.  A ping that is not low-signal has no side effect beyond the
liveness timestamp: no reading, sample, alert or email is created and the
user/contact tables are untouched; the device list is rewritten only when
the throttling condition fires, and that condition holds exactly when
`lastPinged` is absent or more than 5 minutes (300 000 ms) older than now. -/
theorem C7_notlow_frame (db : PingDB) (user : ReqUser) (body : PingRequest)
    (now : ℤ) (did : ℕ) (device : DeviceInfo)
    (hb : body.deviceId = some did)
    (hd : db.devices.find? (fun d =>
      decide (d.id = did) && decide (d.userId = some user.id)) = some device)
    (hnotlow : isLowSignal body.signalDbm body.signalLevel = false) :
    (pingHandler db user body now).2.mobileNetworkInfos = db.mobileNetworkInfos ∧
    (pingHandler db user body now).2.connectivityInfos = db.connectivityInfos ∧
    (pingHandler db user body now).2.alerts = db.alerts ∧
    (pingHandler db user body now).2.emails = db.emails ∧
    (pingHandler db user body now).2.users = db.users ∧
    (pingHandler db user body now).2.contacts = db.contacts ∧
    (pingHandler db user body now).1 = .ok device.id
      (if shouldUpdateLastPinged device now then some now else device.lastPinged)
      false none ∧
    (pingHandler db user body now).2.devices =
      (if shouldUpdateLastPinged device now then
        db.devices.map (fun d =>
          if d.id = device.id then { d with lastPinged := some now } else d)
       else db.devices) ∧
    (shouldUpdateLastPinged device now = true ↔
      device.lastPinged = none ∨
        ∃ t, device.lastPinged = some t ∧ now - t > 5 * 60 * 1000) := by
  rw [pingHandler_notlow_eq db user body now did device hb hd hnotlow]
  refine ⟨rfl, rfl, rfl, rfl, rfl, rfl, rfl, rfl, ?_⟩
  unfold shouldUpdateLastPinged
  rcases hlp : device.lastPinged with _ | t
  · simp
  · simp

/-- Witness for `C7_notlow_frame`: a ping with no signal fields on `c4db`
leaves every table except the device list unchanged. -/
theorem C7_notlow_frame_witness :
    (pingHandler c4db ⟨7, "user@example.com"⟩
      ⟨some 2, none, none, none, none, none, none⟩ 0).2.mobileNetworkInfos
      = c4db.mobileNetworkInfos ∧
    (pingHandler c4db ⟨7, "user@example.com"⟩
      ⟨some 2, none, none, none, none, none, none⟩ 0).2.alerts = c4db.alerts ∧
    (pingHandler c4db ⟨7, "user@example.com"⟩
      ⟨some 2, none, none, none, none, none, none⟩ 0).2.emails = c4db.emails :=
  ⟨(C7_notlow_frame c4db ⟨7, "user@example.com"⟩
      ⟨some 2, none, none, none, none, none, none⟩ 0 2 ⟨2, some 7, none⟩
      rfl rfl rfl).1,
   (C7_notlow_frame c4db ⟨7, "user@example.com"⟩
      ⟨some 2, none, none, none, none, none, none⟩ 0 2 ⟨2, some 7, none⟩
      rfl rfl rfl).2.2.1,
   (C7_notlow_frame c4db ⟨7, "user@example.com"⟩
      ⟨some 2, none, none, none, none, none, none⟩ 0 2 ⟨2, some 7, none⟩
      rfl rfl rfl).2.2.2.1⟩

/-- C10.  The ping handler feeds `signalDbm`/`signalLevel` through
`parseInt` (truncation toward zero) before both the low-signal comparison
and persistence: every fractional level strictly between 1 and 2 is
evaluated low-signal even though the raw value exceeds 1, and a ping with
`signalDbm = −100.5`, `signalLevel = 1.5` stores the truncated reading
(−100, 1). -/
theorem C10_parseInt_truncation :
    (∀ q : ℚ, 1 < q → q < 2 → isLowSignal none (some q) = true) ∧
    isLowSignal (some (-201/2)) (some (3/2)) = true ∧
    (pingHandler c10db ⟨7, "user@example.com"⟩
        ⟨some 2, some (-201/2), some (3/2), some "Vodafone", some "4G",
          none, none⟩ 0).2.mobileNetworkInfos
      = c10db.mobileNetworkInfos ++
        [⟨c10db.nextId, some "Vodafone", some "4G", some (-100), some 1,
          none, none⟩] := by
  have htr1 : jsTrunc (-201/2) = -100 := by
    unfold jsTrunc
    rw [if_pos (by norm_num), Int.ceil_eq_iff]
    constructor <;> norm_num
  have htr2 : jsTrunc (3/2) = 1 := by
    unfold jsTrunc
    rw [if_neg (by norm_num)]
    norm_num
  have hlow : isLowSignal (some (-201/2)) (some (3/2)) = true := by
    simp [isLowSignal, jsParseInt, htr1, htr2]
  refine ⟨?_, hlow, ?_⟩
  · intro q h1 h2
    have h0 : ¬ q < 0 := by linarith
    have htr : jsTrunc q = ⌊q⌋ := by
      unfold jsTrunc
      rw [if_neg h0]
    have hfl : ⌊q⌋ ≤ 1 := by
      have h2' : ⌊q⌋ < 2 := Int.floor_lt.mpr (by exact_mod_cast h2)
      omega
    simp [isLowSignal, jsParseInt, htr, hfl]
  · rw [pingHandler_low_eq c10db ⟨7, "user@example.com"⟩
      ⟨some 2, some (-201/2), some (3/2), some "Vodafone", some "4G",
        none, none⟩ 0 2 ⟨2, some 7, none⟩ rfl rfl hlow,
      pingLowSignalBranch_parsed _ _ _ _ _ (-100) 1
        (by simp [jsParseInt, htr1]) (by simp [jsParseInt, htr2]),
      pingPersistAndDispatch_other]
    · decide
    · decide

end Sigme
